import Mathlib

set_option linter.unusedVariables false

/-!
Shallow embedding of `src/backend/app.py`: the in-memory order store
(`orders_db`, `logs_db`), the row-processing loop of `upload_file`
(lines 154-191), the `scan_order` handler (lines 193-227) and the
`get_orders` listing (lines 65-88).  Python dicts are modelled as
insertion-ordered association lists, pandas cells as a three-valued
`Cell` (missing / numeric / string), and Python exceptions as
`Except String`.  Nondeterministic environment values (uuid, wall
clock) are elided from log entries; the scan timestamp is passed in
as a parameter.
-/

/-- A pandas cell after the column-mapping step: missing (NaN or None),
a numeric value, or a string.  Numeric cells carry integers; the
fractional part of floats plays no role on the embedded code paths. -/
inductive Cell where
  | na : Cell
  | num : Int → Cell
  | str : String → Cell
deriving DecidableEq, Repr

/-- Helper for `parseIntStr`: read a nonempty run of decimal digits. -/
def parseDigitsAux (acc : Nat) : List Char → Option Nat
  | [] => some acc
  | c :: cs => if c.isDigit then parseDigitsAux (acc * 10 + (c.toNat - 48)) cs else none

/-- Python `int(s)` / `float(s)` on a string: an optional minus sign
followed by decimal digits parses; anything else raises.  (Leading `+`
and surrounding whitespace are not modelled.) -/
def parseIntStr (s : String) : Option Int :=
  match s.toList with
  | [] => none
  | '-' :: [] => none
  | '-' :: c :: cs => (parseDigitsAux 0 (c :: cs)).map (fun n => -(n : Int))
  | c :: cs => (parseDigitsAux 0 (c :: cs)).map (fun n => (n : Int))

/-- Python `str(x)` on a cell, as used for `OrderID` and `SKU`
(app.py lines 157, 167): NaN prints as `"nan"` (a missing column filled
with None would print `"None"`; both are nonempty, `"nan"` stands for
either), numbers print their decimal form, strings are themselves. -/
def strCell : Cell → String
  | .na => "nan"
  | .num n => toString n
  | .str s => s

/-- Python `int(x)` on a non-missing cell: exact on numbers, parses a
digit string, raises `ValueError` otherwise. -/
def pyInt : Cell → Except String Int
  | .num n => .ok n
  | .str s =>
    match parseIntStr s with
    | some n => .ok n
    | none => .error ("invalid literal for int() with base 10: " ++ s)
  | .na => .error "cannot convert float NaN to integer"

/-- Python `int(float(x))` as used on `Price` and `Payment`
(app.py lines 163, 173): exact on numbers, parses a numeric string,
raises `ValueError` otherwise. -/
def pyFloatInt : Cell → Except String Int
  | .num n => .ok n
  | .str s =>
    match parseIntStr s with
    | some n => .ok n
    | none => .error ("could not convert string to float: " ++ s)
  | .na => .error "cannot convert float NaN to integer"

/-- Insert a comma after every third character; applied to the reversed
digit list of a number it realizes Python's grouped-thousands format. -/
def group3 : List Char → List Char
  | [] => []
  | [a] => [a]
  | [a, b] => [a, b]
  | [a, b, c] => [a, b, c]
  | a :: b :: c :: rest => a :: b :: c :: ',' :: group3 rest

/-- Python `f"{n:,}"`: decimal digits with grouped thousands. -/
def pyFormatComma (n : Int) : String :=
  let ds := (toString n.natAbs).toList
  (if n < 0 then "-" else "") ++ String.mk (group3 ds.reverse).reverse

/-- App.py line 171: `int(row['Quantity']) if pd.notna(row['Quantity']) else 0`. -/
def pyQuantity (c : Cell) : Except String Int :=
  match c with
  | .na => .ok 0
  | c => pyInt c

/-- App.py line 173: `f"{int(float(row['Price'])):,}" if pd.notna(row['Price']) else "0"`. -/
def pyPriceFmt (c : Cell) : Except String String :=
  match c with
  | .na => .ok "0"
  | c => (pyFloatInt c).map pyFormatComma

/-- App.py line 163: `f"{int(float(row['Payment'])):,}" if pd.notna(row['Payment']) else None`. -/
def pyPaymentFmt (c : Cell) : Except String (Option String) :=
  match c with
  | .na => .ok none
  | c => (pyFloatInt c).map (fun n => some (pyFormatComma n))

/-- One dataframe row after the Persian-to-English column mapping
(app.py lines 135-152); a column absent from the sheet is `Cell.na`. -/
structure Row where
  OrderID : Cell
  SKU : Cell
  Title : Cell
  Color : Cell
  Quantity : Cell
  Price : Cell
  State : Cell
  City : Cell
  Payment : Cell
deriving DecidableEq, Repr

/-- One value of the inner `SKUs` dict (app.py lines 168-174); the
`ScanTimestamp` key appears only after a scan (line 216). -/
structure LineItem where
  Title : Cell
  Color : Cell
  Quantity : Int
  Scanned : Nat
  Price : String
  ScanTimestamp : Option String
deriving DecidableEq, Repr

/-- One value of `orders_db` (app.py lines 159-165). -/
structure Order where
  SKUs : List (String × LineItem)
  State : Cell
  City : Cell
  Payment : Option String
  Status : String
deriving DecidableEq, Repr

/-- One entry of `logs_db` (app.py lines 21-27); the uuid `id` and the
wall-clock `timestamp` are elided. -/
structure LogEntry where
  message : String
  status : String
  details : Option String
deriving DecidableEq, Repr

/-- The module-level mutable state of app.py (lines 16-17). -/
structure Store where
  orders_db : List (String × Order)
  logs_db : List LogEntry
deriving DecidableEq, Repr

/-- Python dict lookup `l[k]` / `k in l` on an insertion-ordered
association list. -/
def alookup {α : Type} (k : String) : List (String × α) → Option α
  | [] => none
  | (k', v) :: rest => if k = k' then some v else alookup k rest

/-- Python dict assignment `l[k] = v`: update in place if the key
exists (keeping its position), else append at the end. -/
def aset {α : Type} (k : String) (v : α) : List (String × α) → List (String × α)
  | [] => [(k, v)]
  | (k', v') :: rest => if k = k' then (k, v) :: rest else (k', v') :: aset k v rest

/-- Python in-place mutation `f(l[k])` of an existing entry. -/
def aupdate {α : Type} (k : String) (f : α → α) : List (String × α) → List (String × α)
  | [] => []
  | (k', v') :: rest => if k = k' then (k', f v') :: rest else (k', v') :: aupdate k f rest

/-- App.py `add_log` (lines 19-29): append one entry to `logs_db`. -/
def add_log (st : Store) (message status : String) (details : Option String) : Store :=
  { st with logs_db := st.logs_db ++ [⟨message, status, details⟩] }

/-- The fresh line-item dict written at app.py lines 168-174. -/
def mkLineItem (row : Row) (qty : Int) (price : String) : LineItem :=
  { Title := row.Title, Color := row.Color, Quantity := qty, Scanned := 0,
    Price := price, ScanTimestamp := none }

/-- App.py lines 157-165: `if order_id not in orders_db:` create the
order dict with the order-level fields of this row.  An exception while
evaluating `Payment` escapes before the dict assignment happens. -/
def ensureOrder (db : List (String × Order)) (row : Row) :
    Except String (List (String × Order)) :=
  match alookup (strCell row.OrderID) db with
  | some _ => .ok db
  | none =>
    match pyPaymentFmt row.Payment with
    | .error e => .error e
    | .ok pay => .ok (aset (strCell row.OrderID)
        { SKUs := [], State := row.State, City := row.City,
          Payment := pay, Status := "Pending" } db)

/-- One iteration of the `for _, row in df.iterrows()` loop of
`upload_file` (app.py lines 156-175).  Returns the database after the
iteration and `some e` when a Python exception escaped it: the order
creation (lines 158-165) happens before the line-item write (167-174),
and inside the line-item dict literal `Quantity` is evaluated before
`Price`, so an exception keeps every effect already made, exactly as
the in-place mutation of the global dict does. -/
def processRow (db : List (String × Order)) (row : Row) :
    List (String × Order) × Option String :=
  match ensureOrder db row with
  | .error e => (db, some e)
  | .ok db1 =>
    match pyQuantity row.Quantity with
    | .error e => (db1, some e)
    | .ok qty =>
      match pyPriceFmt row.Price with
      | .error e => (db1, some e)
      | .ok price =>
        (aupdate (strCell row.OrderID) (fun o =>
          { o with SKUs := aset (strCell row.SKU) (mkLineItem row qty price) o.SKUs }) db1,
         none)

/-- Outcome of `upload_file`: the 200 response carrying
`processed_count`, or the 500 response carrying the exception text. -/
inductive UploadResp where
  | ok : Nat → UploadResp
  | err : String → UploadResp
deriving DecidableEq, Repr

/-- The row loop of `upload_file` with the running `processed_count`
(app.py lines 155-175 inside the `try`): the first escaping exception
aborts the whole loop, keeping the mutations already made. -/
def uploadRows (db : List (String × Order)) (count : Nat) :
    List Row → List (String × Order) × UploadResp
  | [] => (db, .ok count)
  | r :: rs =>
    match processRow db r with
    | (db', some e) => (db', .err e)
    | (db', none) => uploadRows db' (count + 1) rs

/-- App.py `upload_file` (lines 154-191), from the start of the row loop:
on success log and return `processed_count`; on an exception log the
error and return the 500 message, keeping all mutations made so far. -/
def upload_file (st : Store) (rows : List Row) : Store × UploadResp :=
  match uploadRows st.orders_db 0 rows with
  | (db', .ok n) =>
    (add_log { st with orders_db := db' } "File uploaded successfully" "success"
       (some ("Processed " ++ toString n ++ " orders")), .ok n)
  | (db', .err e) =>
    (add_log { st with orders_db := db' } "File processing failed" "error" (some e), .err e)

/-- Outcome of `scan_order`: the 400 missing-fields response, the 404
response, or the 200 success response. -/
inductive ScanResp where
  | missingFields : ScanResp
  | notFound : ScanResp
  | ok : ScanResp
deriving DecidableEq, Repr

/-- Python truthiness of `data.get('orderId')`: `None` and `""` are
falsy (app.py line 200). -/
def falsy : Option String → Bool
  | none => true
  | some s => s == ""

/-- App.py `scan_order` (lines 193-227): validate presence, look up the
order and SKU, then increment `Scanned`, set `ScanTimestamp` (`ts` is
the current time, passed in) and append one log entry. -/
def scan_order (st : Store) (orderId sku : Option String) (ts : String) :
    Store × ScanResp :=
  if falsy orderId || falsy sku then (st, .missingFields)
  else
    match alookup (orderId.getD "") st.orders_db with
    | none => (st, .notFound)
    | some ord =>
      match alookup (sku.getD "") ord.SKUs with
      | none => (st, .notFound)
      | some item =>
        (add_log
          { st with orders_db := (aset (orderId.getD "")
              ({ ord with SKUs := (aset (sku.getD "")
                  ({ item with Scanned := item.Scanned + 1, ScanTimestamp := some ts })
                  ord.SKUs) }) st.orders_db) }
          ("Item scanned: Order " ++ orderId.getD "" ++ ", SKU " ++ sku.getD "")
          "success"
          (some ("Scanned count: " ++ toString (item.Scanned + 1))), .ok)

/-- One element of the list built by `get_orders` (app.py lines 71-83). -/
structure OrderView where
  id : String
  sku : String
  title : Cell
  color : Cell
  quantity : Int
  scanned : Nat
  status : String
  price : String
  state : Cell
  city : Cell
  payment : Option String
deriving DecidableEq, Repr

/-- App.py `get_orders` (lines 65-88): one flattened record per
(order, SKU) pair, with `status` recomputed from the two counts. -/
def get_orders (st : Store) : List OrderView :=
  st.orders_db.flatMap (fun p =>
    p.2.SKUs.map (fun q =>
      { id := p.1, sku := q.1, title := q.2.Title, color := q.2.Color,
        quantity := q.2.Quantity, scanned := q.2.Scanned,
        status := if (q.2.Scanned : Int) ≥ q.2.Quantity then "Fulfilled" else "Pending",
        price := q.2.Price, state := p.2.State, city := p.2.City,
        payment := p.2.Payment }))

/-- The line item stored for `(oid, sku)`, if any: the composite lookup
`orders_db[oid]['SKUs'][sku]`. -/
def lineItemOfDb (db : List (String × Order)) (oid sku : String) : Option LineItem :=
  (alookup oid db).bind (fun o => alookup sku o.SKUs)

/-- `lineItemOfDb` on a whole store. -/
def lineItemOf (st : Store) (oid sku : String) : Option LineItem :=
  lineItemOfDb st.orders_db oid sku

/-- The stored `Scanned` count for `(oid, sku)`, if the pair exists. -/
def scannedOf (st : Store) (oid sku : String) : Option Nat :=
  (lineItemOf st oid sku).map (fun it => it.Scanned)

/-! ## Concrete values used by witnesses and counterexamples -/

/-- A fully populated row: order `"1001"`, SKU `"A1"`, quantity 3. -/
def rowA : Row :=
  ⟨.str "1001", .str "A1", .str "Widget", .str "Red", .num 3, .num 15000,
   .str "Tehran", .str "Tehran", .num 250000⟩

/-- A second row of order `"1001"`: SKU `"A2"`, different order fields. -/
def rowA2 : Row :=
  ⟨.str "1001", .str "A2", .str "Gadget", .str "Blue", .num 1, .num 5000,
   .str "Shiraz", .str "Shiraz", .num 99⟩

/-- A row whose every cell is missing. -/
def rowNa : Row := ⟨.na, .na, .na, .na, .na, .na, .na, .na, .na⟩

/-- A row of order `"2"` whose quantity is the non-numeric string `"x"`. -/
def rowBadQ : Row := ⟨.str "2", .str "B", .na, .na, .str "x", .na, .na, .na, .na⟩

/-- A row of order `"3"` with the negative quantity `-3`. -/
def rowNegQ : Row := ⟨.str "3", .str "C", .na, .na, .num (-3), .na, .na, .na, .na⟩

/-- A row of order `"1"`, SKU `"B"`, with order-level fields differing
from those of `stEx`'s order `"1"`. -/
def rowB : Row := ⟨.str "1", .str "B", .na, .na, .num 2, .na, .str "X", .str "Y", .num 7⟩

/-- A line item with requested quantity 1 and no scans yet. -/
def itemEx : LineItem := ⟨.na, .na, 1, 0, "0", none⟩

/-- An order with no line items. -/
def ordEmpty : Order := ⟨[], .na, .na, none, "Pending"⟩

/-- A store holding one order `"1"` with one line item `"A"`. -/
def stEx : Store :=
  ⟨[("1", ⟨[("A", itemEx)], .na, .na, none, "Pending"⟩)], []⟩

/-- The flattened view of `stEx`'s single line item. -/
def vEx : OrderView := ⟨"1", "A", .na, .na, 1, 0, "Pending", "0", .na, .na, none⟩

/-- The database after ingesting `rowA` into an empty store. -/
def dbPre : List (String × Order) := (processRow [] rowA).1

/-- The database after additionally attempting `rowBadQ` (its order
gets created, then the quantity coercion raises). -/
def dbMid : List (String × Order) := (processRow dbPre rowBadQ).1

/-! ## Association-list lemmas (Python dict semantics) -/

theorem alookup_aset_self {α : Type} (k : String) (v : α) (l : List (String × α)) :
    alookup k (aset k v l) = some v := by
  induction l with
  | nil => simp [aset, alookup]
  | cons p rest ih =>
    obtain ⟨k', v'⟩ := p
    by_cases h : k = k'
    · simp [aset, h, alookup]
    · simp [aset, h, alookup, ih]

theorem alookup_aset_other {α : Type} (k k0 : String) (v : α) (l : List (String × α))
    (h : k ≠ k0) : alookup k (aset k0 v l) = alookup k l := by
  induction l with
  | nil => simp [aset, alookup, h]
  | cons p rest ih =>
    obtain ⟨k', v'⟩ := p
    by_cases h0 : k0 = k'
    · subst h0
      simp [aset, alookup, h]
    · by_cases h1 : k = k'
      · simp [aset, h0, alookup, h1]
      · simp [aset, h0, alookup, h1, ih]

theorem alookup_aupdate_self {α : Type} (k : String) (f : α → α) (l : List (String × α)) :
    alookup k (aupdate k f l) = (alookup k l).map f := by
  induction l with
  | nil => simp [aupdate, alookup]
  | cons p rest ih =>
    obtain ⟨k', v'⟩ := p
    by_cases h : k = k'
    · simp [aupdate, h, alookup]
    · simp [aupdate, h, alookup, ih]

theorem alookup_aupdate_other {α : Type} (k k0 : String) (f : α → α)
    (l : List (String × α)) (h : k ≠ k0) :
    alookup k (aupdate k0 f l) = alookup k l := by
  induction l with
  | nil => simp [aupdate, alookup]
  | cons p rest ih =>
    obtain ⟨k', v'⟩ := p
    by_cases h0 : k0 = k'
    · subst h0
      simp [aupdate, alookup, h]
    · by_cases h1 : k = k'
      · simp [aupdate, h0, alookup, h1]
      · simp [aupdate, h0, alookup, h1, ih]

theorem alookup_aset_isSome {α : Type} (k k0 : String) (v : α) (l : List (String × α))
    (h : (alookup k l).isSome) : (alookup k (aset k0 v l)).isSome := by
  by_cases hk : k = k0
  · subst hk
    rw [alookup_aset_self]
    rfl
  · rw [alookup_aset_other k k0 v l hk]
    exact h

theorem alookup_aupdate_isSome {α : Type} (k k0 : String) (f : α → α)
    (l : List (String × α)) (h : (alookup k l).isSome) :
    (alookup k (aupdate k0 f l)).isSome := by
  by_cases hk : k = k0
  · subst hk
    rw [alookup_aupdate_self]
    simpa using h
  · rw [alookup_aupdate_other k k0 f l hk]
    exact h

theorem add_log_orders (st : Store) (m s : String) (d : Option String) :
    (add_log st m s d).orders_db = st.orders_db := rfl

theorem add_log_logs (st : Store) (m s : String) (d : Option String) :
    (add_log st m s d).logs_db = st.logs_db ++ [⟨m, s, d⟩] := rfl

/-! ## Characterization lemmas for the ingestion loop -/

theorem ensureOrder_ok_char (db : List (String × Order)) (row : Row)
    (db1 : List (String × Order)) (h : ensureOrder db row = .ok db1) :
    (alookup (strCell row.OrderID) db1).isSome ∧
    ((alookup (strCell row.OrderID) db).isSome → db1 = db) ∧
    (∀ k, (alookup k db).isSome → (alookup k db1).isSome) ∧
    (∀ k, k ≠ strCell row.OrderID → alookup k db1 = alookup k db) := by
  unfold ensureOrder at h
  rcases ho : alookup (strCell row.OrderID) db with _ | o
  · rw [ho] at h
    rcases hp : pyPaymentFmt row.Payment with e | pay
    · rw [hp] at h
      cases h
    · rw [hp] at h
      injection h with h
      subst h
      refine ⟨?_, ?_, ?_, ?_⟩
      · rw [alookup_aset_self]
        rfl
      · intro hs
        simp [ho] at hs
      · intro k hk
        exact alookup_aset_isSome k (strCell row.OrderID) _ db hk
      · intro k hk
        exact alookup_aset_other k (strCell row.OrderID) _ db hk
  · rw [ho] at h
    injection h with h
    subst h
    exact ⟨by rw [ho]; rfl, fun _ => rfl, fun k hk => hk, fun k _ => rfl⟩

theorem processRow_domain (db : List (String × Order)) (row : Row) (k : String)
    (hk : (alookup k db).isSome) : (alookup k (processRow db row).1).isSome := by
  unfold processRow
  rcases hE : ensureOrder db row with e | db1
  · exact hk
  · have hc := ensureOrder_ok_char db row db1 hE
    rcases hq : pyQuantity row.Quantity with e | qty
    · exact hc.2.2.1 k hk
    · rcases hp : pyPriceFmt row.Price with e | price
      · exact hc.2.2.1 k hk
      · exact alookup_aupdate_isSome k (strCell row.OrderID) _ db1 (hc.2.2.1 k hk)

theorem processRow_ok_char (db : List (String × Order)) (row : Row)
    (db' : List (String × Order)) (h : processRow db row = (db', none)) :
    ∃ db1 qty price, ensureOrder db row = .ok db1 ∧
      pyQuantity row.Quantity = .ok qty ∧ pyPriceFmt row.Price = .ok price ∧
      db' = aupdate (strCell row.OrderID) (fun o =>
        { o with SKUs := aset (strCell row.SKU) (mkLineItem row qty price) o.SKUs }) db1 := by
  unfold processRow at h
  rcases hE : ensureOrder db row with e | db1 <;> rw [hE] at h
  · cases h
  · rcases hq : pyQuantity row.Quantity with e | qty <;> rw [hq] at h
    · cases h
    · rcases hp : pyPriceFmt row.Price with e | price <;> rw [hp] at h
      · cases h
      · injection h with h1 h2
        exact ⟨db1, qty, price, rfl, rfl, rfl, h1.symm⟩

theorem uploadRows_cons_err (db db' : List (String × Order)) (c : Nat) (r : Row)
    (rs : List Row) (e : String) (h : processRow db r = (db', some e)) :
    uploadRows db c (r :: rs) = (db', .err e) := by
  conv_lhs => rw [uploadRows]
  rw [h]

theorem uploadRows_cons_ok (db db' : List (String × Order)) (c : Nat) (r : Row)
    (rs : List Row) (h : processRow db r = (db', none)) :
    uploadRows db c (r :: rs) = uploadRows db' (c + 1) rs := by
  conv_lhs => rw [uploadRows]
  rw [h]

theorem uploadRows_ok_count (rows : List Row) :
    ∀ db c db' n, uploadRows db c rows = (db', UploadResp.ok n) → n = c + rows.length := by
  induction rows with
  | nil =>
    intro db c db' n h
    unfold uploadRows at h
    injection h with h1 h2
    injection h2 with h2
    simp only [List.length_nil]
    omega
  | cons r rs ih =>
    intro db c db' n h
    rcases hp : processRow db r with ⟨db1, oe⟩
    rcases oe with _ | e
    · rw [uploadRows_cons_ok db db1 c r rs hp] at h
      have := ih db1 (c + 1) db' n h
      simp only [List.length_cons]
      omega
    · rw [uploadRows_cons_err db db1 c r rs e hp] at h
      injection h with h1 h2
      cases h2

theorem uploadRows_append (pre : List Row) :
    ∀ db c db1 n rest, uploadRows db c pre = (db1, UploadResp.ok n) →
      uploadRows db c (pre ++ rest) = uploadRows db1 n rest := by
  induction pre with
  | nil =>
    intro db c db1 n rest h
    unfold uploadRows at h
    injection h with h1 h2
    injection h2 with h2
    subst h1
    subst h2
    rfl
  | cons r rs ih =>
    intro db c db1 n rest h
    rcases hp : processRow db r with ⟨dbx, oe⟩
    rcases oe with _ | e
    · rw [uploadRows_cons_ok db dbx c r rs hp] at h
      rw [List.cons_append, uploadRows_cons_ok db dbx c r (rs ++ rest) hp]
      exact ih dbx (c + 1) db1 n rest h
    · rw [uploadRows_cons_err db dbx c r rs e hp] at h
      injection h with h1 h2
      cases h2

theorem lineItemOf_update (st : Store) (oid sku : String) (ord : Order)
    (item' : LineItem) (m s : String) (d : Option String) :
    lineItemOf (add_log { st with orders_db := (aset oid
        ({ ord with SKUs := (aset sku item' ord.SKUs) }) st.orders_db) } m s d) oid sku
      = some item' := by
  unfold lineItemOf add_log lineItemOfDb
  show (alookup oid (aset oid ({ ord with SKUs := (aset sku item' ord.SKUs) })
      st.orders_db)).bind (fun o => alookup sku o.SKUs) = some item'
  rw [alookup_aset_self]
  show alookup sku (aset sku item' ord.SKUs) = some item'
  rw [alookup_aset_self]

/-! ## Claim theorems -/

/-- Claim C10: for every scan request in which orderId or sku is absent
or an empty string, scan fails with the missing-fields validation error,
which is distinct from not-found; the decision is independent of the
store, and the store (hence every order) is returned unchanged. -/
theorem C10_missing_fields (st : Store) (orderId sku : Option String) (ts : String)
    (h : orderId = none ∨ orderId = some "" ∨ sku = none ∨ sku = some "") :
    scan_order st orderId sku ts = (st, ScanResp.missingFields) ∧
    ScanResp.missingFields ≠ ScanResp.notFound := by
  refine ⟨?_, by decide⟩
  have hf : (falsy orderId || falsy sku) = true := by
    rcases h with h | h | h | h <;> subst h <;> simp [falsy]
  unfold scan_order
  rw [hf]
  simp

/-- Witness for C10 at a concrete input. -/
theorem C10_witness :
    scan_order ⟨[], []⟩ none (some "A1") "t" = (⟨[], []⟩, ScanResp.missingFields) ∧
    ScanResp.missingFields ≠ ScanResp.notFound :=
  C10_missing_fields ⟨[], []⟩ none (some "A1") "t" (Or.inl rfl)

/-- Claim C4 as stated is false: with an empty orderId the order `""`
is not in the (empty) store, yet the failure is the missing-fields
validation error, not not-found. -/
theorem C4_counterexample :
    (scan_order ⟨[], []⟩ (some "") (some "A1") "t").2 ≠ ScanResp.notFound ∧
    alookup "" ((⟨[], []⟩ : Store)).orders_db = none := by
  decide

/-- Claim C4 (amended): for nonempty orderID and sku, scan fails with
not-found iff the order is absent from the store or the sku is not a
key of that order's line items, and on such a failure the store is
returned unchanged. -/
theorem C4_amended (st : Store) (oid sku ts : String)
    (hoid : oid ≠ "") (hsku : sku ≠ "") :
    ((scan_order st (some oid) (some sku) ts).2 = ScanResp.notFound ↔
      lineItemOf st oid sku = none) ∧
    ((scan_order st (some oid) (some sku) ts).2 = ScanResp.notFound →
      (scan_order st (some oid) (some sku) ts).1 = st) := by
  have hf : (falsy (some oid) || falsy (some sku)) = false := by
    simp [falsy, hoid, hsku]
  unfold scan_order
  rw [hf]
  simp only [Bool.false_eq_true, if_false, Option.getD_some]
  rcases ho : alookup oid st.orders_db with _ | ord
  · simp [lineItemOf, lineItemOfDb, ho]
  · rcases hi : alookup sku ord.SKUs with _ | item
    · simp [lineItemOf, lineItemOfDb, ho, hi]
    · simp [lineItemOf, lineItemOfDb, ho, hi]

/-- Witness for C4 (amended) at a concrete input. -/
theorem C4_witness :
    ((scan_order ⟨[], []⟩ (some "1001") (some "A1") "t").2 = ScanResp.notFound ↔
      lineItemOf ⟨[], []⟩ "1001" "A1" = none) ∧
    ((scan_order ⟨[], []⟩ (some "1001") (some "A1") "t").2 = ScanResp.notFound →
      (scan_order ⟨[], []⟩ (some "1001") (some "A1") "t").1 = ⟨[], []⟩) :=
  C4_amended ⟨[], []⟩ "1001" "A1" "t" (by decide) (by decide)

/-- Claim C5: a successful scan of an existing (orderID, SKU) pair
increments that line item's scanned count by exactly 1, sets its scan
timestamp, and appends exactly one log entry reporting the new count;
no upper bound is involved (the hypothesis places no constraint on the
counts, so over-scan behaves identically). -/
theorem C5_scan_success (st : Store) (oid sku ts : String) (item : LineItem)
    (hoid : oid ≠ "") (hsku : sku ≠ "")
    (hitem : lineItemOf st oid sku = some item) :
    (scan_order st (some oid) (some sku) ts).2 = ScanResp.ok ∧
    lineItemOf (scan_order st (some oid) (some sku) ts).1 oid sku =
      some { item with Scanned := item.Scanned + 1, ScanTimestamp := some ts } ∧
    (scan_order st (some oid) (some sku) ts).1.logs_db =
      st.logs_db ++ [⟨"Item scanned: Order " ++ oid ++ ", SKU " ++ sku, "success",
        some ("Scanned count: " ++ toString (item.Scanned + 1))⟩] := by
  obtain ⟨ord, ho, hi⟩ : ∃ ord, alookup oid st.orders_db = some ord ∧
      alookup sku ord.SKUs = some item := by
    unfold lineItemOf lineItemOfDb at hitem
    rcases ho : alookup oid st.orders_db with _ | ord
    · rw [ho] at hitem
      cases hitem
    · rw [ho] at hitem
      exact ⟨ord, rfl, hitem⟩
  have hf : (falsy (some oid) || falsy (some sku)) = false := by
    simp [falsy, hoid, hsku]
  have hscan : scan_order st (some oid) (some sku) ts =
      (add_log { st with orders_db := (aset oid
          ({ ord with SKUs := (aset sku
              ({ item with Scanned := item.Scanned + 1, ScanTimestamp := some ts })
              ord.SKUs) }) st.orders_db) }
        ("Item scanned: Order " ++ oid ++ ", SKU " ++ sku) "success"
        (some ("Scanned count: " ++ toString (item.Scanned + 1))), ScanResp.ok) := by
    unfold scan_order
    rw [hf]
    simp only [Bool.false_eq_true, if_false, Option.getD_some, ho, hi]
  rw [hscan]
  exact ⟨rfl, lineItemOf_update st oid sku ord _ _ _ _, rfl⟩

/-- Witness for C5 at a concrete input. -/
theorem C5_witness :
    (scan_order stEx (some "1") (some "A") "t").2 = ScanResp.ok ∧
    lineItemOf (scan_order stEx (some "1") (some "A") "t").1 "1" "A" =
      some { itemEx with Scanned := itemEx.Scanned + 1, ScanTimestamp := some "t" } ∧
    (scan_order stEx (some "1") (some "A") "t").1.logs_db =
      stEx.logs_db ++ [⟨"Item scanned: Order " ++ "1" ++ ", SKU " ++ "A", "success",
        some ("Scanned count: " ++ toString (itemEx.Scanned + 1))⟩] :=
  C5_scan_success stEx "1" "A" "t" itemEx (by decide) (by decide) (by decide)

/-- Claim C1 as stated is false: after ingesting a row, scanning it
once (count 1), and re-ingesting the identical row, the scanned count
drops back to 0 — re-ingestion writes a brand-new line-item record
instead of leaving the nonzero count unchanged. -/
theorem C1_counterexample :
    scannedOf ((scan_order ((upload_file ⟨[], []⟩ [rowA]).1)
      (some "1001") (some "A1") "t1").1) "1001" "A1" = some 1 ∧
    scannedOf ((upload_file ((scan_order ((upload_file ⟨[], []⟩ [rowA]).1)
      (some "1001") (some "A1") "t1").1) [rowA]).1) "1001" "A1" = some 0 := by
  decide

theorem scannedOf_scan_store (st : Store) (oid0 : String) (ord' : Order)
    (m s : String) (d : Option String) (oid k : String) :
    scannedOf (add_log { st with orders_db := (aset oid0 ord' st.orders_db) } m s d) oid k
      = (alookup oid (aset oid0 ord' st.orders_db)).bind (fun o =>
          (alookup k o.SKUs).map (fun it => it.Scanned)) := by
  unfold scannedOf lineItemOf lineItemOfDb add_log
  show Option.map _ ((alookup oid (aset oid0 ord' st.orders_db)).bind _) = _
  rcases alookup oid (aset oid0 ord' st.orders_db) with _ | o
  · rfl
  · show Option.map _ (alookup k o.SKUs) = (alookup k o.SKUs).map _
    rfl

/-- Claim C1 (amended): scannedCount never decreases under scan
operations (every pair present before a scan is present after it with a
count at least as large); but a successfully processed re-ingested row
overwrites its (orderID, SKU) line item with a fresh record whose
scanned count is 0 and whose scan timestamp is cleared, losing prior
scan progress. -/
theorem C1_amended :
    (∀ st orderId sku ts oid k n,
        scannedOf st oid k = some n →
        ∃ m, scannedOf (scan_order st orderId sku ts).1 oid k = some m ∧ n ≤ m) ∧
    (∀ db row db', processRow db row = (db', none) →
        ∃ it, lineItemOfDb db' (strCell row.OrderID) (strCell row.SKU) = some it ∧
          it.Scanned = 0 ∧ it.ScanTimestamp = none) := by
  constructor
  · intro st orderId sku ts oid k n hn
    obtain ⟨o, ho2, it, hi2, hsc⟩ : ∃ o, alookup oid st.orders_db = some o ∧
        ∃ it, alookup k o.SKUs = some it ∧ it.Scanned = n := by
      unfold scannedOf lineItemOf lineItemOfDb at hn
      rcases h1 : alookup oid st.orders_db with _ | o
      · simp [h1] at hn
      · simp only [h1, Option.some_bind] at hn
        rcases h2 : alookup k o.SKUs with _ | it
        · simp [h2] at hn
        · simp only [h2, Option.map_some'] at hn
          injection hn with hn
          exact ⟨o, rfl, it, h2, hn⟩
    by_cases hb : (falsy orderId || falsy sku) = true
    · unfold scan_order
      rw [hb]
      refine ⟨n, ?_, le_rfl⟩
      show scannedOf st oid k = some n
      unfold scannedOf lineItemOf lineItemOfDb
      rw [ho2]
      simp only [Option.some_bind]
      rw [hi2]
      simp only [Option.map_some']
      rw [hsc]
    · rw [Bool.not_eq_true] at hb
      unfold scan_order
      rw [hb]
      simp only [Bool.false_eq_true, if_false]
      split
      next ho =>
        refine ⟨n, ?_, le_rfl⟩
        show scannedOf st oid k = some n
        unfold scannedOf lineItemOf lineItemOfDb
        rw [ho2]
        simp only [Option.some_bind]
        rw [hi2]
        simp only [Option.map_some']
        rw [hsc]
      next ord ho =>
        split
        next hi =>
          refine ⟨n, ?_, le_rfl⟩
          show scannedOf st oid k = some n
          unfold scannedOf lineItemOf lineItemOfDb
          rw [ho2]
          simp only [Option.some_bind]
          rw [hi2]
          simp only [Option.map_some']
          rw [hsc]
        next item hi =>
          by_cases hk1 : oid = orderId.getD ""
          · rw [← hk1] at ho ⊢
            have hoo : ord = o := Option.some.inj (ho.symm.trans ho2)
            by_cases hk2 : k = sku.getD ""
            · rw [← hk2] at hi ⊢
              have hii : item = it := by
                rw [hoo] at hi
                rw [hi] at hi2
                exact Option.some.inj hi2
              have hni : n = item.Scanned := by
                rw [hii, hsc]
              refine ⟨item.Scanned + 1, ?_, by omega⟩
              rw [scannedOf_scan_store, alookup_aset_self]
              simp only [Option.some_bind]
              rw [alookup_aset_self]
              rfl
            · refine ⟨n, ?_, le_rfl⟩
              rw [scannedOf_scan_store, alookup_aset_self]
              simp only [Option.some_bind]
              rw [alookup_aset_other k (sku.getD "") _ ord.SKUs hk2]
              rw [hoo]
              rw [hi2]
              simp only [Option.map_some']
              rw [hsc]
          · refine ⟨n, ?_, le_rfl⟩
            rw [scannedOf_scan_store,
              alookup_aset_other oid (orderId.getD "") _ st.orders_db hk1, ho2]
            simp only [Option.some_bind]
            rw [hi2]
            simp only [Option.map_some']
            rw [hsc]
  · intro db row db' h
    obtain ⟨db1, qty, price, hE, hq, hp, hdb⟩ := processRow_ok_char db row db' h
    have hc := ensureOrder_ok_char db row db1 hE
    refine ⟨mkLineItem row qty price, ?_, rfl, rfl⟩
    unfold lineItemOfDb
    subst hdb
    rw [alookup_aupdate_self]
    obtain ⟨o1, ho1⟩ := Option.isSome_iff_exists.mp hc.1
    rw [ho1]
    simp only [Option.map_some', Option.some_bind]
    show alookup (strCell row.SKU) (aset (strCell row.SKU) _ o1.SKUs) = _
    rw [alookup_aset_self]

/-- Witness for C1 (amended) at concrete inputs. -/
theorem C1_witness :
    (∃ m, scannedOf (scan_order stEx (some "1") (some "A") "t").1 "1" "A" = some m ∧
      0 ≤ m) ∧
    (∃ it, lineItemOfDb (processRow [] rowA).1 "1001" "A1" = some it ∧
      it.Scanned = 0 ∧ it.ScanTimestamp = none) :=
  ⟨C1_amended.1 stEx (some "1") (some "A") "t" "1" "A" 0 (by decide),
   C1_amended.2 [] rowA (processRow [] rowA).1 (by decide)⟩

/-- When the payment, quantity and price cells are all missing, one row
always processes without an exception and leaves its (stringified)
order identifier present in the database. -/
theorem processRow_total_fields (db : List (String × Order)) (row : Row)
    (hPay : row.Payment = Cell.na) (hQty : row.Quantity = Cell.na)
    (hPrice : row.Price = Cell.na) :
    (processRow db row).2 = none ∧
    (alookup (strCell row.OrderID) (processRow db row).1).isSome := by
  unfold processRow
  rcases hE : ensureOrder db row with e | db1
  · exfalso
    unfold ensureOrder at hE
    rcases h : alookup (strCell row.OrderID) db with _ | o
    · rw [h, hPay] at hE
      simp [pyPaymentFmt] at hE
    · rw [h] at hE
      simp at hE
  · have hc := ensureOrder_ok_char db row db1 hE
    rw [hQty, hPrice]
    simp only [pyQuantity, pyPriceFmt]
    refine ⟨trivial, ?_⟩
    exact alookup_aupdate_isSome _ _ _ _ hc.1

/-- Claim C2 as stated is false: ingesting one row whose order
identifier cell is missing is not skipped and produces no row-level
error — the upload succeeds with processed count 1 and an order is
created under the stringified key "nan". -/
theorem C2_counterexample :
    (upload_file ⟨[], []⟩ [rowNa]).2 = UploadResp.ok 1 ∧
    (alookup "nan" (upload_file ⟨[], []⟩ [rowNa]).1.orders_db).isSome := by
  decide

/-- Claim C2 (amended): a row whose order identifier is absent is not
skipped and no row-level error is collected: the identifier is
stringified (a missing cell becomes "nan"), an Order is created or
updated under that key, and the row counts toward processedCount.
The other coercible cells are taken missing as well, as in the claimed
scenario of a row distinguished only by its absent identifier. -/
theorem C2_amended (st : Store) (row : Row)
    (hOid : row.OrderID = Cell.na) (hPay : row.Payment = Cell.na)
    (hQty : row.Quantity = Cell.na) (hPrice : row.Price = Cell.na) :
    (upload_file st [row]).2 = UploadResp.ok 1 ∧
    (alookup "nan" (upload_file st [row]).1.orders_db).isSome := by
  obtain ⟨h2, hsome⟩ := processRow_total_fields st.orders_db row hPay hQty hPrice
  have hpr : processRow st.orders_db row = ((processRow st.orders_db row).1, none) := by
    rw [← h2]
  have hup : uploadRows st.orders_db 0 [row] =
      ((processRow st.orders_db row).1, UploadResp.ok 1) := by
    rw [uploadRows_cons_ok st.orders_db (processRow st.orders_db row).1 0 row [] hpr]
    rfl
  unfold upload_file
  rw [hup]
  refine ⟨rfl, ?_⟩
  rw [hOid] at hsome
  exact hsome

/-- Witness for C2 (amended) at a concrete input. -/
theorem C2_witness :
    (upload_file stEx [rowNa]).2 = UploadResp.ok 1 ∧
    (alookup "nan" (upload_file stEx [rowNa]).1.orders_db).isSome :=
  C2_amended stEx rowNa rfl rfl rfl rfl

/-- Claim C3 as stated is false: on a failing row the batch aborts with
a single error response (no per-row error list is returned), and the
rows after the failing one are not processed — here row three's SKU
"A2" never reaches the store. -/
theorem C3_counterexample :
    (upload_file ⟨[], []⟩ [rowA, rowBadQ, rowA2]).2 =
      UploadResp.err "invalid literal for int() with base 10: x" ∧
    lineItemOf (upload_file ⟨[], []⟩ [rowA, rowBadQ, rowA2]).1 "1001" "A2" = none := by
  decide

/-- Claim C3 (amended): the upload loop returns a single processed
count and no per-row error list: on success the count equals the total
number of rows (no row is excluded, there being no row-level
validation), and the first row whose processing raises aborts the loop
immediately with that single error and the database as mutated so
far. -/
theorem C3_amended :
    (∀ rows db c db' n, uploadRows db c rows = (db', UploadResp.ok n) →
        n = c + rows.length) ∧
    (∀ db c r rs db' e, processRow db r = (db', some e) →
        uploadRows db c (r :: rs) = (db', UploadResp.err e)) :=
  ⟨fun rows db c db' n h => uploadRows_ok_count rows db c db' n h,
   fun db c r rs db' e h => uploadRows_cons_err db db' c r rs e h⟩

/-- Witness for C3 (amended) at concrete inputs. -/
theorem C3_witness :
    ((1 : Nat) = 0 + [rowA].length) ∧
    uploadRows [] 0 [rowBadQ] =
      ((processRow [] rowBadQ).1,
        UploadResp.err "invalid literal for int() with base 10: x") :=
  ⟨C3_amended.1 [rowA] [] 0 (processRow [] rowA).1 1 (by decide),
   C3_amended.2 [] 0 rowBadQ [] (processRow [] rowBadQ).1
     "invalid literal for int() with base 10: x" (by decide)⟩

/-- Claim C7: ingesting a record whose orderID already exists leaves
that order's State/City/Payment (and Status) unchanged and leaves every
other order untouched: only the existing order's line-item mapping may
change. -/
theorem C7_first_write_wins (db : List (String × Order)) (row : Row) (o : Order)
    (h : alookup (strCell row.OrderID) db = some o) :
    (∃ o', alookup (strCell row.OrderID) (processRow db row).1 = some o' ∧
       o'.State = o.State ∧ o'.City = o.City ∧ o'.Payment = o.Payment ∧
       o'.Status = o.Status) ∧
    (∀ k, k ≠ strCell row.OrderID → alookup k (processRow db row).1 = alookup k db) := by
  have hE : ensureOrder db row = .ok db := by
    unfold ensureOrder
    rw [h]
  unfold processRow
  rw [hE]
  rcases hq : pyQuantity row.Quantity with e | qty
  · exact ⟨⟨o, h, rfl, rfl, rfl, rfl⟩, fun k _ => rfl⟩
  · rcases hp : pyPriceFmt row.Price with e | price
    · exact ⟨⟨o, h, rfl, rfl, rfl, rfl⟩, fun k _ => rfl⟩
    · constructor
      · have hsee := alookup_aupdate_self (strCell row.OrderID) (fun o =>
          { o with SKUs := aset (strCell row.SKU) (mkLineItem row qty price) o.SKUs }) db
        rw [h] at hsee
        exact ⟨_, hsee, rfl, rfl, rfl, rfl⟩
      · intro k hk
        exact alookup_aupdate_other k (strCell row.OrderID) _ db hk

/-- Witness for C7 at a concrete input. -/
theorem C7_witness :
    (∃ o', alookup "1" (processRow stEx.orders_db rowB).1 = some o' ∧
       o'.State = Cell.na ∧ o'.City = Cell.na ∧ o'.Payment = none ∧
       o'.Status = "Pending") ∧
    (∀ k, k ≠ "1" → alookup k (processRow stEx.orders_db rowB).1 =
       alookup k stEx.orders_db) :=
  C7_first_write_wins stEx.orders_db rowB ⟨[("A", itemEx)], .na, .na, none, "Pending"⟩
    (by decide)

/-- Claim C8 as stated is false: a non-numeric quantity does not yield
0 but raises and fails the whole batch, and a negative quantity is
stored as a negative integer, so the coercion is not to a non-negative
integer. -/
theorem C8_counterexample :
    (upload_file ⟨[], []⟩ [rowBadQ]).2 =
      UploadResp.err "invalid literal for int() with base 10: x" ∧
    (lineItemOf (upload_file ⟨[], []⟩ [rowNegQ]).1 "3" "C").map
      (fun it => it.Quantity) = some (-3) := by
  decide

/-- Claim C8 (amended): the quantity cell is coerced with Python
`int()`: a missing value yields 0, an integer value is stored as-is
(negatives included), and a non-numeric value raises an error that
fails the whole batch rather than defaulting to 0. -/
theorem C8_amended :
    (pyQuantity Cell.na = .ok 0) ∧
    (∀ n, pyQuantity (Cell.num n) = .ok n) ∧
    (∀ s, parseIntStr s = none →
        pyQuantity (Cell.str s) =
          .error ("invalid literal for int() with base 10: " ++ s)) ∧
    (∀ db row s, row.Quantity = Cell.str s → parseIntStr s = none →
        (alookup (strCell row.OrderID) db).isSome → (processRow db row).2 ≠ none) := by
  refine ⟨rfl, fun n => rfl, fun s hs => ?_, fun db row s hq hs hdb => ?_⟩
  · simp only [pyQuantity, pyInt]
    rw [hs]
  · obtain ⟨o, ho⟩ := Option.isSome_iff_exists.mp hdb
    have hE : ensureOrder db row = .ok db := by
      unfold ensureOrder
      rw [ho]
    have hqe : pyQuantity (Cell.str s) =
        .error ("invalid literal for int() with base 10: " ++ s) := by
      simp only [pyQuantity, pyInt]
      rw [hs]
    unfold processRow
    rw [hE, hq, hqe]
    simp

/-- Witness for C8 (amended) at concrete inputs. -/
theorem C8_witness :
    pyQuantity (Cell.str "x") =
      .error ("invalid literal for int() with base 10: " ++ "x") ∧
    (processRow [("2", ordEmpty)] rowBadQ).2 ≠ none :=
  ⟨C8_amended.2.2.1 "x" (by decide),
   C8_amended.2.2.2 [("2", ordEmpty)] rowBadQ "x" rfl (by decide) (by decide)⟩

/-- Claim C9: ingestion is not atomic — when a prefix of the batch
processes fine and the next row raises, the upload returns that error,
the database keeps all mutations made up to and including the partial
failing row (every order key present before the failing row is still
present), and the remaining rows are not processed. -/
theorem C9_partial_ingest (st : Store) (pre : List Row) (r : Row) (rs : List Row)
    (db1 : List (String × Order)) (n : Nat) (db2 : List (String × Order)) (e : String)
    (hpre : uploadRows st.orders_db 0 pre = (db1, UploadResp.ok n))
    (hr : processRow db1 r = (db2, some e)) :
    (upload_file st (pre ++ r :: rs)).2 = UploadResp.err e ∧
    (upload_file st (pre ++ r :: rs)).1.orders_db = db2 ∧
    (∀ k, (alookup k db1).isSome → (alookup k db2).isSome) := by
  have hall : uploadRows st.orders_db 0 (pre ++ r :: rs) = (db2, UploadResp.err e) := by
    rw [uploadRows_append pre st.orders_db 0 db1 n (r :: rs) hpre]
    exact uploadRows_cons_err db1 db2 n r rs e hr
  unfold upload_file
  rw [hall]
  refine ⟨rfl, rfl, ?_⟩
  intro k hk
  have hdom := processRow_domain db1 r k hk
  rw [hr] at hdom
  exact hdom

/-- Witness for C9 at concrete inputs. -/
theorem C9_witness :
    (upload_file ⟨[], []⟩ ([rowA] ++ rowBadQ :: [rowA2])).2 =
      UploadResp.err "invalid literal for int() with base 10: x" ∧
    (upload_file ⟨[], []⟩ ([rowA] ++ rowBadQ :: [rowA2])).1.orders_db = dbMid ∧
    (∀ k, (alookup k dbPre).isSome → (alookup k dbMid).isSome) :=
  C9_partial_ingest ⟨[], []⟩ [rowA] rowBadQ [rowA2] dbPre 1 dbMid
    "invalid literal for int() with base 10: x" (by decide) (by decide)

/-- Claim C6: the flattened listing has exactly one record per
(order, SKU) pair of the store — its length is the total number of
line items, every record comes from a stored pair whose order-level
fields (state, city, payment) it carries, with its status recomputed
at observation time as Fulfilled iff scannedCount is at least the
requested quantity, and every stored pair contributes a record. -/
theorem C6_list_line_items (st : Store) :
    ((get_orders st).length = (st.orders_db.map (fun p => p.2.SKUs.length)).sum) ∧
    (∀ v ∈ get_orders st, ∃ p ∈ st.orders_db, ∃ q ∈ p.2.SKUs,
        v.id = p.1 ∧ v.sku = q.1 ∧ v.state = p.2.State ∧ v.city = p.2.City ∧
        v.payment = p.2.Payment ∧ v.scanned = q.2.Scanned ∧
        v.quantity = q.2.Quantity ∧
        v.status = (if (q.2.Scanned : Int) ≥ q.2.Quantity then "Fulfilled" else "Pending")) ∧
    (∀ p ∈ st.orders_db, ∀ q ∈ p.2.SKUs, ∃ v ∈ get_orders st,
        v.id = p.1 ∧ v.sku = q.1) := by
  refine ⟨?_, ?_, ?_⟩
  · simp [get_orders, Function.comp_def]
  · intro v hv
    unfold get_orders at hv
    rw [List.mem_flatMap] at hv
    obtain ⟨p, hp, hv⟩ := hv
    rw [List.mem_map] at hv
    obtain ⟨q, hq, rfl⟩ := hv
    exact ⟨p, hp, q, hq, rfl, rfl, rfl, rfl, rfl, rfl, rfl, rfl⟩
  · intro p hp q hq
    exact ⟨_, List.mem_flatMap.mpr ⟨p, hp, List.mem_map_of_mem _ hq⟩, rfl, rfl⟩

/-- Witness for C6 at a concrete input. -/
theorem C6_witness :
    (∃ p ∈ stEx.orders_db, ∃ q ∈ p.2.SKUs,
        vEx.id = p.1 ∧ vEx.sku = q.1 ∧ vEx.state = p.2.State ∧ vEx.city = p.2.City ∧
        vEx.payment = p.2.Payment ∧ vEx.scanned = q.2.Scanned ∧
        vEx.quantity = q.2.Quantity ∧
        vEx.status =
          (if (q.2.Scanned : Int) ≥ q.2.Quantity then "Fulfilled" else "Pending")) ∧
    (∃ v ∈ get_orders stEx, v.id = "1" ∧ v.sku = "A") :=
  ⟨(C6_list_line_items stEx).2.1 vEx (by decide),
   (C6_list_line_items stEx).2.2
     ("1", ⟨[("A", itemEx)], Cell.na, Cell.na, none, "Pending"⟩) (by decide)
     ("A", itemEx) (by decide)⟩
